import Mathlib

/-!
Verification of the catalog-sync / order-submission core of the
shopify-printful-qr relay (src/index.js), as a shallow embedding.

Conventions of the embedding:
* JS numbers in the relevant JSON payloads are modelled as `Int` (every id,
  quantity and map value the code manipulates is integer-valued; `Number` of a
  numeric string is modelled with `String.toInt?`, `NaN` as `none`).
* A JS object used as a string-keyed table is an insertion-ordered association
  list `List (String × Int)`; property read is first-match lookup, property
  write updates in place or appends (`objSet`), exactly as JS object keys behave.
* Fallible effects (upstream fetches, the durable file write) are passed in as
  explicit oracle arguments; the webhook handler and the rebuild are pure state
  transformers over the data those effects return.
* The cooperative single-threaded runtime means the two global maps are
  reassigned in two adjacent statements with no suspension point between them
  (index.js lines 149-150); the embedding models that as one atomic `Snapshot`
  assignment.
-/

namespace PrintfulQr

/-- A primitive JSON scalar as the webhook / catalog payloads carry it where the
code reads ids: a number (modelled as `Int`) or a string. -/
inductive JsPrim
  | num (n : Int)
  | str (s : String)
deriving DecidableEq, Repr

/-- JS `String(x)` for the primitives above (index.js line 138 stores external
ids keyed by their string form). -/
def jsPrimToString : JsPrim → String
  | JsPrim.num n => toString n
  | JsPrim.str s => s

/-- JS truthiness of such a value (`0`, `""` are falsy). -/
def jsPrimTruthy : JsPrim → Bool
  | JsPrim.num n => n != 0
  | JsPrim.str s => s != ""

/-- JS `Number(x)` restricted to the embedding's value space: a number converts
to itself, `Number("") = 0`, a numeric string parses, anything else is `NaN`
(modelled `none`). -/
def jsToNumber : JsPrim → Option Int
  | JsPrim.num n => some n
  | JsPrim.str s => if s = "" then some 0 else s.toInt?

/-- JS `a ?? b` on possibly-null values (index.js line 124). -/
def jsNullish (a b : Option JsPrim) : Option JsPrim :=
  match a with
  | some x => some x
  | none => b

/-- Property read on a JS object used as a table: `m[k]`, `undefined` when the
key is absent. -/
def objGet (m : List (String × Int)) (k : String) : Option Int :=
  match m.find? (fun kv => kv.1 == k) with
  | some kv => some kv.2
  | none => none

/-- Property write `m[k] = v` on a JS object: an existing key keeps its
position, a new key is appended (JS insertion order). -/
def objSet (m : List (String × Int)) (k : String) (v : Int) : List (String × Int) :=
  match m with
  | [] => [(k, v)]
  | kv :: rest => if kv.1 == k then (k, v) :: rest else kv :: objSet rest k v

/-- JS `a || b` where `a` is a looked-up map value (`undefined` or a number,
whose truthiness is being nonzero) — index.js line 197. -/
def jsOr (a b : Option Int) : Option Int :=
  match a with
  | some n => if n = 0 then b else some n
  | none => b

/-- The pair of maps the program keeps: `skuMap` (SKU → printful sync variant
id) and `externalMap` (Shopify variant id, as a string → sync variant id) —
index.js lines 47-48. -/
structure Snapshot where
  skuMap : List (String × Int)
  externalMap : List (String × Int)
deriving DecidableEq, Repr

/-- A Shopify line item with the fields the core reads: `sku` (may be absent),
`variant_id` (number or string, may be absent), `quantity` (may be absent), and
the `properties` bag as name/value string pairs (absent names arrive as `""`). -/
structure LineItem where
  sku : Option String
  variant_id : Option JsPrim
  quantity : Option Int
  properties : List (String × String)
deriving DecidableEq, Repr

/-- A Shopify order as the webhook handler reads it: numeric id plus line
items. Recipient/customer fields are pure string pass-through (index.js lines
222-231) and are not referenced by any claim, so they are not carried here. -/
structure Order where
  id : Nat
  line_items : List LineItem
deriving DecidableEq, Repr

/-- index.js lines 192-193: `const sku = (li.sku || "").toString(); const
variantFromSku = sku ? skuMap[sku] : undefined;`. -/
def variantFromSku (snap : Snapshot) (li : LineItem) : Option Int :=
  let sku := li.sku.getD ""
  if sku = "" then none else objGet snap.skuMap sku

/-- index.js line 194: `const variantFromExternal = li.variant_id ?
externalMap[String(li.variant_id)] : undefined;` — the lookup happens only for
a truthy `variant_id`. -/
def variantFromExternal (snap : Snapshot) (li : LineItem) : Option Int :=
  match li.variant_id with
  | some e => if jsPrimTruthy e then objGet snap.externalMap (jsPrimToString e) else none
  | none => none

/-- index.js line 197: `const mapped = variantFromSku || variantFromExternal;`. -/
def resolveItem (snap : Snapshot) (li : LineItem) : Option Int :=
  jsOr (variantFromSku snap li) (variantFromExternal snap li)

/-- index.js line 207: `quantity: li.quantity || 1`. -/
def jsQuantity (q : Option Int) : Int :=
  match q with
  | some n => if n = 0 then 1 else n
  | none => 1

/-- One item of the Printful order payload (index.js lines 206-211): quantity,
numeric sync variant id, and the single artifact file at the fixed "back"
placement. -/
structure PrintfulItem where
  quantity : Int
  sync_variant_id : Int
  fileUrl : String
  fileType : String
deriving DecidableEq, Repr

/-- index.js lines 190-212: walk the line items, skip any whose `mapped` value
is falsy (`if (!mapped) continue`), push the rest. -/
def buildItems (snap : Snapshot) (imageUrl : String) : List LineItem → List PrintfulItem
  | [] => []
  | li :: rest =>
    match resolveItem snap li with
    | some mapped =>
      if mapped = 0 then buildItems snap imageUrl rest
      else PrintfulItem.mk (jsQuantity li.quantity) mapped imageUrl "back" :: buildItems snap imageUrl rest
    | none => buildItems snap imageUrl rest

/-- The provider order document (index.js lines 220-233), keyed by
`external_id = String(order.id)`. Recipient fields are plain string defaults
not referenced by any claim. -/
structure PrintfulPayload where
  external_id : String
  items : List PrintfulItem
deriving DecidableEq, Repr

/-- The non-throwing results of `createOrUpdatePrintfulOrder`: the explicit
skip marker `{skipped: true, reason}` or the provider's success response. -/
inductive PfOutcome
  | skipped (reason : String)
  | created (resp : String)
deriving DecidableEq, Repr

/-- index.js lines 187-255. `provider` is the PUT `/orders/@external_id`
oracle. The second component of the result is the list of upsert requests
actually issued to the provider, so "no provider write" is `= []`. A thrown
`Error` is an `Except.error` carrying its message. -/
def createOrUpdatePrintfulOrder (token : String) (snap : Snapshot)
    (provider : PrintfulPayload → Except String String) (order : Order)
    (imageUrl : String) : Except String PfOutcome × List PrintfulPayload :=
  if token = "" then (Except.error "PRINTFUL_TOKEN not set in .env", [])
  else
    let items := buildItems snap imageUrl order.line_items
    if items = [] then (Except.ok (PfOutcome.skipped "no_mapped_items"), [])
    else
      let payload := PrintfulPayload.mk (toString order.id) items
      match provider payload with
      | Except.ok d => (Except.ok (PfOutcome.created d), [payload])
      | Except.error e => (Except.error ("Printful order failed: " ++ e), [payload])

/-- JS `String.prototype.toLowerCase()` over the property names the code
compares (ASCII), written structurally over the character list. -/
def jsToLowerCase (s : String) : String :=
  String.mk (s.data.map Char.toLower)

/-- index.js lines 277-287: first line item holding a property whose lowercased
name is "qr text" and whose value is truthy. -/
def findQrText : List LineItem → Option String
  | [] => none
  | li :: rest =>
    match li.properties.find? (fun p => jsToLowerCase p.1 == "qr text") with
    | some p => if p.2 = "" then findQrText rest else some p.2
    | none => findQrText rest

/-- `Set.add` on the processed-orders set, modelled as a duplicate-free list in
insertion order. -/
def jsSetAdd (s : List Nat) (x : Nat) : List Nat :=
  if s.contains x then s else s ++ [x]

/-- The collaborators of the webhook route: the Printful token, the result of
the ImgBB upload (an `Except.error` covers a missing IMGBB key and an upstream
rejection alike, both reach the same catch), the provider upsert oracle and the
currently-active snapshot. -/
structure WebhookDeps where
  token : String
  upload : Except String String
  provider : PrintfulPayload → Except String String
  snap : Snapshot

/-- The POST /webhook/orders_create handler, index.js lines 260-331: dedupe
guard, QR-text lookup, upload, Printful upsert. Returns the HTTP response
(status, body) and the new processed-orders set; `processedOrders.add` runs
only after a non-skipped provider success (line 319). -/
def ordersCreateWebhook (d : WebhookDeps) (processed : List Nat) (order : Order) :
    (Nat × String) × List Nat :=
  if processed.contains order.id then ((200, "Already processed"), processed)
  else
    match findQrText order.line_items with
    | none => ((200, "No QR Text"), processed)
    | some _ =>
      match d.upload with
      | Except.error _ => ((500, "ImgBB upload failed"), processed)
      | Except.ok imageUrl =>
        match createOrUpdatePrintfulOrder d.token d.snap d.provider order imageUrl with
        | (Except.ok (PfOutcome.skipped _), _) =>
          ((200, "No mapped items; skipped Printful creation"), processed)
        | (Except.ok (PfOutcome.created _), _) =>
          ((200, "Processed and sent to Printful"), jsSetAdd processed order.id)
        | (Except.error _, _) => ((500, "Printful order failed"), processed)

/-- A sync variant as the per-product detail returns it (index.js lines
122-139): the two possible id fields, the sku and the external id. -/
structure RawVariant where
  id : Option JsPrim
  sync_variant_id : Option JsPrim
  sku : Option String
  external_id : Option JsPrim
deriving DecidableEq, Repr

/-- A product of a catalog listing page. `detail` is the outcome of that
product's own detail fetch: `none` when `!pr.ok` (the product is skipped with a
warning, index.js lines 117-120), otherwise its `sync_variants`. -/
structure RawProduct where
  detail : Option (List RawVariant)
deriving DecidableEq, Repr

/-- The paginated listing endpoint's answer at one offset: HTTP failure
(`!resp.ok`, line 107) or a page of products (`data.result || []`). -/
inductive PageResp
  | fail
  | ok (products : List RawProduct)
deriving DecidableEq, Repr

/-- index.js lines 124-129: `const syncIdRaw = (v.id ?? v.sync_variant_id ??
null); const syncId = syncIdRaw != null ? Number(syncIdRaw) : null; if (!syncId
|| Number.isNaN(syncId)) continue;` — `none` means the variant is skipped. -/
def deriveSyncId (v : RawVariant) : Option Int :=
  match jsNullish v.id v.sync_variant_id with
  | none => none
  | some raw =>
    match jsToNumber raw with
    | none => none
    | some n => if n = 0 then none else some n

/-- index.js lines 122-140: one variant's contribution to the two fresh maps.
A truthy `v.sku` keys `skuMap`; a non-null `v.external_id` keys `externalMap`
by its string form. -/
def addVariant (acc : Snapshot) (v : RawVariant) : Snapshot :=
  match deriveSyncId v with
  | none => acc
  | some syncId =>
    Snapshot.mk
      (match v.sku with
        | some s => if s = "" then acc.skuMap else objSet acc.skuMap s syncId
        | none => acc.skuMap)
      (match v.external_id with
        | some e => objSet acc.externalMap (jsPrimToString e) syncId
        | none => acc.externalMap)

/-- index.js lines 113-141: the per-page product loop. A product whose detail
fetch failed is skipped (`continue`), otherwise its variants are folded in. -/
def processProducts (acc : Snapshot) : List RawProduct → Snapshot
  | [] => acc
  | p :: rest =>
    match p.detail with
    | none => processProducts acc rest
    | some vs => processProducts (vs.foldl addVariant acc) rest

/-- index.js line 99: `const limit = 100;` — the fixed page size. -/
def limit : Nat := 100

/-- index.js lines 103-145: the `while (true)` paging loop, as fuel-indexed
recursion. `up` answers the listing fetch at a byte offset; the loop requests
offsets 0, limit, 2*limit, ... and stops exactly when `products.length <
limit`. `none` is the fuel running out, i.e. the JS loop not having returned
within `fuel` iterations; a listing failure is the thrown
"Printful sync fetch failed". There is no total-count field in the model
because the code never reads one. -/
def buildLoop (up : Nat → PageResp) : Nat → Nat → Snapshot → Option (Except String Snapshot)
  | 0, _, _ => none
  | fuel + 1, off, acc =>
    match up off with
    | PageResp.fail => some (Except.error "Printful sync fetch failed")
    | PageResp.ok products =>
      let acc2 := processProducts acc products
      if products.length < limit then some (Except.ok acc2)
      else buildLoop up fuel (off + limit) acc2

/-- Hex digit for the JSON control-character escapes. -/
def hexDigit (n : Nat) : Char :=
  if n < 10 then Char.ofNat (48 + n) else Char.ofNat (87 + n)

/-- Two lowercase hex digits. -/
def hex2 (n : Nat) : String :=
  String.singleton (hexDigit (n / 16)) ++ String.singleton (hexDigit (n % 16))

/-- JSON.stringify's escaping of one character inside a string literal. -/
def jsonEscapeChar (c : Char) : String :=
  if c = '"' then "\\\""
  else if c = '\\' then "\\\\"
  else if c = '\n' then "\\n"
  else if c = '\r' then "\\r"
  else if c = '\t' then "\\t"
  else if c.toNat = 8 then "\\b"
  else if c.toNat = 12 then "\\f"
  else if c.toNat < 32 then "\\u00" ++ hex2 c.toNat
  else String.singleton c

/-- A JSON string literal. -/
def jsonQuote (s : String) : String :=
  "\"" ++ String.join (s.toList.map jsonEscapeChar) ++ "\""

/-- `JSON.stringify(m)` of a flat string→number table, no indentation
(index.js line 148 compares maps this way). -/
def stringifyMap (m : List (String × Int)) : String :=
  "\x7b" ++ String.intercalate "," (m.map (fun kv => jsonQuote kv.1 ++ ":" ++ toString kv.2)) ++ "\x7d"

/-- index.js line 148: `JSON.stringify(skuMap) !== JSON.stringify(newSkuMap)
|| JSON.stringify(externalMap) !== JSON.stringify(newExternalMap)`. -/
def mapsChangedB (old new : Snapshot) : Bool :=
  stringifyMap old.skuMap != stringifyMap new.skuMap
    || stringifyMap old.externalMap != stringifyMap new.externalMap

/-- One map rendered inside `JSON.stringify({...}, null, 2)` at nesting depth
one: entries at four spaces, the closing brace at two. -/
def stringifyMapIndent (m : List (String × Int)) : String :=
  if m.isEmpty then "\x7b\x7d"
  else
    "\x7b\n"
      ++ String.intercalate ",\n" (m.map (fun kv => "    " ++ jsonQuote kv.1 ++ ": " ++ toString kv.2))
      ++ "\n  \x7d"

/-- index.js line 77: `JSON.stringify({ skuMap: newSkuMap, externalMap:
newExternalMap }, null, 2)` — the canonical persisted form. -/
def fileJson (snap : Snapshot) : String :=
  "\x7b\n  " ++ jsonQuote "skuMap" ++ ": " ++ stringifyMapIndent snap.skuMap
    ++ ",\n  " ++ jsonQuote "externalMap" ++ ": " ++ stringifyMapIndent snap.externalMap
    ++ "\n\x7d"

/-- The persistent side of a rebuild: the in-memory snapshot (the two globals),
the persisted file's content (`none` = no file), and how many times
`fs.writeFileSync` has been invoked. -/
structure BuildState where
  snap : Snapshot
  file : Option String
  writes : Nat
deriving DecidableEq, Repr

/-- index.js lines 74-90. `writeOk` is the durable write oracle: when `false`
the `fs.writeFileSync` call throws, the catch logs and swallows it, and the
file keeps its old content — the function itself never raises. The write
counter counts invocations of `writeFileSync`, successful or not. -/
def saveSkuMapToFileIfChanged (writeOk : Bool) (newMaps : Snapshot) (st : BuildState) : BuildState :=
  let newJson := fileJson newMaps
  match st.file with
  | some oldJson =>
    if oldJson = newJson then st
    else BuildState.mk st.snap (if writeOk then some newJson else st.file) (st.writes + 1)
  | none => BuildState.mk st.snap (if writeOk then some newJson else st.file) (st.writes + 1)

/-- index.js lines 93-164: the full rebuild as a state transformer. A missing
token throws before anything runs; a listing failure propagates out of the
loop; on success the two fresh maps replace the globals together (one
assignment here, two adjacent statements with no suspension point in the
source) and are persisted only if their serialized form changed. `none` is the
paging loop not terminating within the fuel. -/
def buildSkuMaps (token : String) (up : Nat → PageResp) (writeOk : Bool) (fuel : Nat)
    (st : BuildState) : Option (Except String Unit × BuildState) :=
  if token = "" then some (Except.error "PRINTFUL_TOKEN not set in .env", st)
  else
    match buildLoop up fuel 0 (Snapshot.mk [] []) with
    | none => none
    | some (Except.error e) => some (Except.error e, st)
    | some (Except.ok newMaps) =>
      if mapsChangedB st.snap newMaps then
        some (Except.ok (), saveSkuMapToFileIfChanged writeOk newMaps (BuildState.mk newMaps st.file st.writes))
      else
        some (Except.ok (), st)

/-- A general JSON value, for the persisted-document loader which must tolerate
arbitrary shapes. -/
inductive JVal
  | num (n : Int)
  | str (s : String)
  | bool (b : Bool)
  | null
  | obj (fields : List (String × JVal))
  | arr (elems : List JVal)

/-- JS truthiness of a JSON value. -/
def jTruthy : JVal → Bool
  | JVal.num n => n != 0
  | JVal.str s => s != ""
  | JVal.bool b => b
  | JVal.null => false
  | JVal.obj _ => true
  | JVal.arr _ => true

/-- Property read `v.k`: a field of an object, `undefined` otherwise. -/
def jGet : JVal → String → Option JVal
  | JVal.obj fields, k => (fields.find? (fun kv => kv.1 == k)).map (fun kv => kv.2)
  | _, _ => none

/-- Truthiness of a possibly-`undefined` value. -/
def jTruthyOpt : Option JVal → Bool
  | some v => jTruthy v
  | none => false

/-- JS `x || {}` for a possibly-`undefined` value. -/
def jsOrEmpty : Option JVal → JVal
  | some v => if jTruthy v then v else JVal.obj []
  | none => JVal.obj []

/-- JS `x || {}` for a present value. -/
def jsOrEmptyV (v : JVal) : JVal :=
  if jTruthy v then v else JVal.obj []

/-- What the store holds when `loadSkuMapFromFile` runs: no file, a file whose
read or `JSON.parse` throws, or a file parsing to a document. -/
inductive StoreState
  | missing
  | unreadable
  | doc (parsed : JVal)

/-- index.js lines 50-72: load the persisted maps. The whole body is inside
try/catch and every path assigns both globals, so the function never raises;
the branch on `parsed && parsed.skuMap && parsed.externalMap` keeps the legacy
flat-file shape loadable. Returns the pair (skuMap, externalMap) assigned. -/
def loadSkuMapFromFile : StoreState → JVal × JVal
  | StoreState.missing => (JVal.obj [], JVal.obj [])
  | StoreState.unreadable => (JVal.obj [], JVal.obj [])
  | StoreState.doc parsed =>
    if jTruthy parsed && jTruthyOpt (jGet parsed "skuMap") && jTruthyOpt (jGet parsed "externalMap") then
      (jsOrEmpty (jGet parsed "skuMap"), jsOrEmpty (jGet parsed "externalMap"))
    else
      (jsOrEmptyV parsed, JVal.obj [])

/-! Concrete inputs used by witnesses and counterexamples. -/

/-- The empty snapshot. -/
def emptySnap : Snapshot := Snapshot.mk [] []

/-- A provider oracle that accepts every upsert. -/
def providerOk : PrintfulPayload → Except String String :=
  fun _ => Except.ok "created"

/-- A provider oracle that rejects every upsert. -/
def providerErr : PrintfulPayload → Except String String :=
  fun _ => Except.error "bad request"

/-- A line item with sku "A", Shopify variant id 9, quantity 2 and a QR-text
property. -/
def liA : LineItem :=
  LineItem.mk (some "A") (some (JsPrim.num 9)) (some 2) [("QR Text", "hello")]

/-- An order holding `liA`. -/
def orderA : Order := Order.mk 7 [liA]

/-- A snapshot resolving `liA` both ways: by sku to 5 and by external id to 7. -/
def snapBoth : Snapshot := Snapshot.mk [("A", 5)] [("9", 7)]

/-- Webhook collaborators for a fully successful run against `snapBoth`. -/
def depsOk : WebhookDeps :=
  WebhookDeps.mk "tok" (Except.ok "http://img/u") providerOk snapBoth

/-- Webhook collaborators whose snapshot is empty, so nothing resolves. -/
def depsEmpty : WebhookDeps :=
  WebhookDeps.mk "tok" (Except.ok "http://img/u") providerOk emptySnap

/-- The line item of the C1 counterexample: no sku, `variant_id: 0`. -/
def liZero : LineItem := LineItem.mk none (some (JsPrim.num 0)) none []

/-- The snapshot of the C1 counterexample: `byExternalId` maps "0" to 5. -/
def snapZeroKey : Snapshot := Snapshot.mk [] [("0", 5)]

/-- A variant with sync id 7, sku "A" and external id 9. -/
def varGood : RawVariant :=
  RawVariant.mk (some (JsPrim.num 7)) none (some "A") (some (JsPrim.num 9))

/-- A variant whose derived id is negative (C4 counterexample): `v.id = -5`. -/
def varNeg : RawVariant :=
  RawVariant.mk (some (JsPrim.num (-5))) none (some "A") none

/-- A variant with both id fields null: skipped by the guard. -/
def varNoId : RawVariant := RawVariant.mk none none (some "Z") none

/-- A product whose detail fetch succeeded with `varGood`. -/
def prodGood : RawProduct := RawProduct.mk (some [varGood])

/-- A product whose detail fetch failed. -/
def prodFailDetail : RawProduct := RawProduct.mk none

/-- An upstream whose single short page holds `prodGood`. -/
def upOneGood : Nat → PageResp := fun _ => PageResp.ok [prodGood]

/-- An upstream whose single short page holds the negative-id variant. -/
def upOneNeg : Nat → PageResp := fun _ => PageResp.ok [RawProduct.mk (some [varNeg])]

/-- An upstream whose listing fetch always fails. -/
def upFail : Nat → PageResp := fun _ => PageResp.fail

/-- An upstream that immediately returns an empty (short) page. -/
def upEmpty : Nat → PageResp := fun _ => PageResp.ok []

/-- The build state before the witnesses' first rebuild: empty maps, no file. -/
def stEmpty : BuildState := BuildState.mk emptySnap none 0

/-- The snapshot `upOneGood` builds. -/
def snapGood : Snapshot := Snapshot.mk [("A", 7)] [("9", 7)]

/-- The state after a successful rebuild from `stEmpty` over `upOneGood`. -/
def stAfterGood : BuildState := BuildState.mk snapGood (some (fileJson snapGood)) 1

/-! Helper lemmas. -/

/-- A successful object lookup comes from a pair of the table. -/
theorem objGet_mem {m : List (String × Int)} {k : String} {v : Int}
    (h : objGet m k = some v) : (k, v) ∈ m := by
  unfold objGet at h
  cases hf : m.find? (fun kv => kv.1 == k) with
  | none => rw [hf] at h; exact Option.noConfusion h
  | some kv =>
    rw [hf] at h
    have hk : kv.1 = k := by simpa using List.find?_some hf
    have hv : kv.2 = v := Option.some.inj h
    have hmem := List.mem_of_find?_eq_some hf
    have : kv = (k, v) := by
      cases kv
      simp only at hk hv
      rw [hk, hv]
    rw [← this]
    exact hmem

/-- C1 (amended): on a snapshot whose stored ids are positive — the
data-model invariant for `FulfillmentVariantId` — resolution follows the
priority policy: a non-empty sku found in `skuMap` wins regardless of what the
external id would give; otherwise a present and truthy `variant_id` whose
string form is a key of `externalMap` gives that mapping; otherwise the item is
unresolved. Matching is the exact key equality of `objGet` throughout. -/
theorem c1_resolve_priority (snap : Snapshot) (li : LineItem) (v w : Int)
    (hsku : ∀ kv ∈ snap.skuMap, 0 < kv.2)
    (_hext : ∀ kv ∈ snap.externalMap, 0 < kv.2) :
    (variantFromSku snap li = some v → resolveItem snap li = some v)
    ∧ (variantFromSku snap li = none → variantFromExternal snap li = some w →
        resolveItem snap li = some w)
    ∧ (variantFromSku snap li = none → variantFromExternal snap li = none →
        resolveItem snap li = none) := by
  refine ⟨?_, ?_, ?_⟩
  · intro h
    have hpos : 0 < v := by
      have hget : objGet snap.skuMap (li.sku.getD "") = some v := by
        unfold variantFromSku at h
        by_cases he : li.sku.getD "" = ""
        · rw [if_pos he] at h; exact Option.noConfusion h
        · rw [if_neg he] at h; exact h
      exact hsku _ (objGet_mem hget)
    unfold resolveItem
    rw [h]
    show (if v = 0 then variantFromExternal snap li else some v) = some v
    rw [if_neg (by omega)]
  · intro h1 h2
    unfold resolveItem
    rw [h1, h2]
    rfl
  · intro h1 h2
    unfold resolveItem
    rw [h1, h2]
    rfl

/-- C1 counterexample: `byExternalId` maps the key "0" to 5 and the line item
carries `variant_id: 0` (present, and its string form is that key), yet the
code resolves to nothing, because `li.variant_id ? ... : undefined` treats the
falsy value 0 as absent. -/
theorem c1_counterexample :
    liZero.variant_id = some (JsPrim.num 0)
    ∧ objGet snapZeroKey.externalMap (jsPrimToString (JsPrim.num 0)) = some 5
    ∧ resolveItem snapZeroKey liZero = none
    ∧ resolveItem snapZeroKey liZero ≠ some 5 := by
  refine ⟨rfl, rfl, rfl, ?_⟩
  intro h
  exact Option.noConfusion h

/-- C1 witness: `liA` resolves by sku to 5 even though its external id would
resolve to 7. -/
theorem c1_witness :
    variantFromExternal snapBoth liA = some 7 ∧ resolveItem snapBoth liA = some 5 :=
  ⟨rfl, (c1_resolve_priority snapBoth liA 5 7 (by decide) (by decide)).1 rfl⟩

/-- C2: with the token configured, an order none of whose line items resolves
(the built item list is empty) makes `createOrUpdatePrintfulOrder` return the
explicit skip `{skipped: true, reason: "no_mapped_items"}` with an empty list
of issued provider writes: the upsert request is never sent. -/
theorem c2_skip_no_mapped_items (token : String) (snap : Snapshot)
    (provider : PrintfulPayload → Except String String) (order : Order) (imageUrl : String)
    (htok : token ≠ "")
    (hempty : buildItems snap imageUrl order.line_items = []) :
    createOrUpdatePrintfulOrder token snap provider order imageUrl
      = (Except.ok (PfOutcome.skipped "no_mapped_items"), []) := by
  unfold createOrUpdatePrintfulOrder
  rw [if_neg htok]
  simp [hempty]

/-- C2 witness: against the empty snapshot, `orderA` builds no items and the
submission is skipped without a provider write. -/
theorem c2_witness :
    buildItems emptySnap "u" orderA.line_items = []
    ∧ createOrUpdatePrintfulOrder "tok" emptySnap providerOk orderA "u"
        = (Except.ok (PfOutcome.skipped "no_mapped_items"), []) :=
  ⟨rfl, c2_skip_no_mapped_items "tok" emptySnap providerOk orderA "u" (by decide) rfl⟩

/-- C3 (amended): the order id is added to the processed set exactly when the
webhook run ends in a confirmed provider success; on the explicit Skipped
outcome and on a provider failure (SubmissionError → 500) the set is unchanged,
so a later retry of the same order id passes the dedupe guard. The set either
stays as it was or grows by exactly this order id. -/
theorem c3_marked_iff_success (d : WebhookDeps) (p : List Nat) (o : Order) :
    ((ordersCreateWebhook d p o).1 = (200, "Processed and sent to Printful")
        ↔ (ordersCreateWebhook d p o).2 ≠ p)
    ∧ ((ordersCreateWebhook d p o).1 = (500, "Printful order failed")
        → (ordersCreateWebhook d p o).2 = p)
    ∧ ((ordersCreateWebhook d p o).1 = (200, "No mapped items; skipped Printful creation")
        → (ordersCreateWebhook d p o).2 = p)
    ∧ ((ordersCreateWebhook d p o).2 = p ∨ (ordersCreateWebhook d p o).2 = p ++ [o.id]) := by
  unfold ordersCreateWebhook
  split
  · refine ⟨⟨fun h => by simp at h, fun h => absurd rfl h⟩, fun _ => rfl, fun _ => rfl, Or.inl rfl⟩
  · rename_i hdup
    split
    · refine ⟨⟨fun h => by simp at h, fun h => absurd rfl h⟩, fun _ => rfl, fun _ => rfl, Or.inl rfl⟩
    · split
      · refine ⟨⟨fun h => by simp at h, fun h => absurd rfl h⟩, fun _ => rfl, fun _ => rfl, Or.inl rfl⟩
      · split
        · refine ⟨⟨fun h => by simp at h, fun h => absurd rfl h⟩, fun _ => rfl, fun _ => rfl, Or.inl rfl⟩
        · have hadd : jsSetAdd p o.id = p ++ [o.id] := by
            unfold jsSetAdd
            rw [if_neg hdup]
          have hne : p ++ [o.id] ≠ p := by
            intro hEq
            have := congrArg List.length hEq
            simp at this
          refine ⟨⟨fun _ => by rw [hadd]; exact hne, fun _ => rfl⟩,
            fun h => by simp at h, fun h => by simp at h, Or.inr hadd⟩
        · refine ⟨⟨fun h => by simp at h, fun h => absurd rfl h⟩, fun _ => rfl, fun _ => rfl, Or.inl rfl⟩

/-- C3 counterexample: an order whose submission ends in the explicit
`Skipped(no_mapped_items)` outcome is not added to the processed set — the
route returns before `processedOrders.add` runs — contradicting the claim that
a Skipped outcome marks the order processed. -/
theorem c3_counterexample :
    (ordersCreateWebhook depsEmpty [] orderA).1
        = (200, "No mapped items; skipped Printful creation")
    ∧ (ordersCreateWebhook depsEmpty [] orderA).2 = []
    ∧ (ordersCreateWebhook depsEmpty [] orderA).2 ≠ [orderA.id] := by
  refine ⟨rfl, rfl, ?_⟩
  intro h
  exact List.noConfusion h

/-- C3 witness: a run that reaches a confirmed provider success marks the
order id. -/
theorem c3_witness :
    (ordersCreateWebhook depsOk [] orderA).1 = (200, "Processed and sent to Printful")
    ∧ (ordersCreateWebhook depsOk [] orderA).2 ≠ [] :=
  ⟨rfl, (c3_marked_iff_success depsOk [] orderA).1.mp rfl⟩

/-- Saving never touches the in-memory snapshot. -/
theorem saveSkuMap_snap (writeOk : Bool) (newMaps : Snapshot) (st : BuildState) :
    (saveSkuMapToFileIfChanged writeOk newMaps st).snap = st.snap := by
  unfold saveSkuMapToFileIfChanged
  cases st.file with
  | none => rfl
  | some oldJson =>
    by_cases h : oldJson = fileJson newMaps
    · simp only [if_pos h]
    · simp only [if_neg h]

/-- A failed durable write leaves the persisted file as it was. -/
theorem saveSkuMap_file_of_failed (newMaps : Snapshot) (st : BuildState) :
    (saveSkuMapToFileIfChanged false newMaps st).file = st.file := by
  unfold saveSkuMapToFileIfChanged
  cases hf : st.file with
  | none => rfl
  | some oldJson =>
    dsimp only
    by_cases h : oldJson = fileJson newMaps
    · rw [if_pos h]; exact hf
    · rw [if_neg h]; rfl

/-- The changed-test is reflexively false: a snapshot serializes equal to
itself. -/
theorem mapsChangedB_self (snap : Snapshot) : mapsChangedB snap snap = false := by
  unfold mapsChangedB
  simp

/-- C5: a rebuild that fails — the missing-credential throw before anything
runs, or the listing fetch failing mid-pagination — leaves the build state
exactly as it was: the active snapshot (both maps, which the model replaces
only together in the single swap after the loop), the persisted file and the
write counter all keep their pre-build values. -/
theorem c5_failed_rebuild_preserves_state (token : String) (up : Nat → PageResp)
    (writeOk : Bool) (fuel : Nat) (st st1 : BuildState) (e : String)
    (h : buildSkuMaps token up writeOk fuel st = some (Except.error e, st1)) :
    st1 = st := by
  unfold buildSkuMaps at h
  by_cases ht : token = ""
  · rw [if_pos ht] at h
    exact (congrArg Prod.snd (Option.some.inj h)).symm
  · rw [if_neg ht] at h
    split at h
    · exact Option.noConfusion h
    · exact (congrArg Prod.snd (Option.some.inj h)).symm
    · split at h
      · exact Except.noConfusion (congrArg Prod.fst (Option.some.inj h))
      · exact Except.noConfusion (congrArg Prod.fst (Option.some.inj h))

/-- C5 witness: with the listing endpoint failing, the rebuild surfaces the
error and the state is untouched. -/
theorem c5_witness :
    buildSkuMaps "tok" upFail true 1 stEmpty
        = some (Except.error "Printful sync fetch failed", stEmpty)
    ∧ stEmpty = stEmpty :=
  ⟨rfl, c5_failed_rebuild_preserves_state "tok" upFail true 1 stEmpty stEmpty
    "Printful sync fetch failed" rfl⟩

/-- C7: a second rebuild over identical upstream content, straight after a
rebuild that completed, is a no-op: it returns the very same state — in
particular the write counter is unchanged, so `fs.writeFileSync` is not invoked
at all. (The in-memory compare of the serialized maps short-circuits before
`saveSkuMapToFileIfChanged`, whose own guard would also skip an identical
persisted form.) -/
theorem c7_second_rebuild_writes_nothing (token : String) (up : Nat → PageResp)
    (writeOk : Bool) (fuel : Nat) (st st1 : BuildState)
    (h : buildSkuMaps token up writeOk fuel st = some (Except.ok (), st1)) :
    buildSkuMaps token up writeOk fuel st1 = some (Except.ok (), st1) := by
  unfold buildSkuMaps at h ⊢
  by_cases ht : token = ""
  · rw [if_pos ht] at h
    exact Except.noConfusion (congrArg Prod.fst (Option.some.inj h))
  · rw [if_neg ht] at h ⊢
    split at h
    · exact Option.noConfusion h
    · exact Except.noConfusion (congrArg Prod.fst (Option.some.inj h))
    · rename_i newMaps heq
      split at h
      · have hst1 : saveSkuMapToFileIfChanged writeOk newMaps (BuildState.mk newMaps st.file st.writes) = st1 :=
          congrArg Prod.snd (Option.some.inj h)
        have hsnap : st1.snap = newMaps := by
          rw [← hst1]
          exact saveSkuMap_snap writeOk newMaps (BuildState.mk newMaps st.file st.writes)
        rw [if_neg (by rw [hsnap, mapsChangedB_self]; exact Bool.false_ne_true)]
      · rename_i hc
        have hst1 : st = st1 := congrArg Prod.snd (Option.some.inj h)
        rw [← hst1, if_neg hc]

/-- C7 witness: after a first successful rebuild from the empty state, the
second rebuild over the same upstream returns the same state (write counter
still 1). -/
theorem c7_witness :
    buildSkuMaps "tok" upOneGood true 1 stEmpty = some (Except.ok (), stAfterGood)
    ∧ buildSkuMaps "tok" upOneGood true 1 stAfterGood = some (Except.ok (), stAfterGood) :=
  ⟨rfl, c7_second_rebuild_writes_nothing "tok" upOneGood true 1 stEmpty stAfterGood rfl⟩

/-- C10: when the durable write fails, `saveSkuMapToFileIfChanged` catches and
only logs: the rebuild still completes with `ok`, the freshly built maps are
still swapped in as the active snapshot (the swap precedes the save in the
source), and the persisted file keeps its old content — in-memory state and
file may now diverge. -/
theorem c10_failed_write_still_swaps (token : String) (up : Nat → PageResp)
    (fuel : Nat) (st : BuildState) (newMaps : Snapshot)
    (ht : token ≠ "")
    (hb : buildLoop up fuel 0 (Snapshot.mk [] []) = some (Except.ok newMaps))
    (hc : mapsChangedB st.snap newMaps = true) :
    ∃ st1, buildSkuMaps token up false fuel st = some (Except.ok (), st1)
      ∧ st1.snap = newMaps ∧ st1.file = st.file := by
  refine ⟨saveSkuMapToFileIfChanged false newMaps (BuildState.mk newMaps st.file st.writes), ?_, ?_, ?_⟩
  · unfold buildSkuMaps
    rw [if_neg ht, hb]
    dsimp only
    rw [if_pos hc]
  · rw [saveSkuMap_snap]
  · rw [saveSkuMap_file_of_failed]

/-- C10 witness: a rebuild whose write fails still reports success, with the
new maps active and no file written. -/
theorem c10_witness :
    ∃ st1, buildSkuMaps "tok" upOneGood false 1 stEmpty = some (Except.ok (), st1)
      ∧ st1.snap = snapGood ∧ st1.file = stEmpty.file :=
  c10_failed_write_still_swaps "tok" upOneGood 1 stEmpty snapGood (by decide) rfl rfl

/-- If every page strictly before page `k` is full and page `k` is short, the
paging loop returns successfully within `k + 1` iterations, whatever the
accumulator: the JS `while (true)` terminates on the first short page. -/
theorem buildLoop_reaches_short {up : Nat → PageResp} :
    ∀ (k off : Nat) (acc : Snapshot),
      (∀ j, j < k → ∃ ps, up (off + j * limit) = PageResp.ok ps ∧ limit ≤ ps.length) →
      (∃ ps, up (off + k * limit) = PageResp.ok ps ∧ ps.length < limit) →
      ∀ fuel, k < fuel → ∃ s, buildLoop up fuel off acc = some (Except.ok s) := by
  intro k
  induction k with
  | zero =>
    intro off acc _ hshort fuel hfuel
    obtain ⟨ps, hps, hl⟩ := hshort
    rw [Nat.zero_mul, Nat.add_zero] at hps
    cases fuel with
    | zero => exact (Nat.lt_irrefl 0 hfuel).elim
    | succ f =>
      refine ⟨processProducts acc ps, ?_⟩
      simp only [buildLoop, hps]
      rw [if_pos hl]
  | succ k ih =>
    intro off acc hfull hshort fuel hfuel
    obtain ⟨ps0, hps0, hl0⟩ := hfull 0 (Nat.succ_pos k)
    rw [Nat.zero_mul, Nat.add_zero] at hps0
    cases fuel with
    | zero => exact (Nat.not_lt_zero _ hfuel).elim
    | succ f =>
      have hfull2 : ∀ j, j < k → ∃ ps, up (off + limit + j * limit) = PageResp.ok ps ∧ limit ≤ ps.length := by
        intro j hj
        have harr : off + limit + j * limit = off + (j + 1) * limit := by
          simp [limit]
          omega
        rw [harr]
        exact hfull (j + 1) (by omega)
      have hshort2 : ∃ ps, up (off + limit + k * limit) = PageResp.ok ps ∧ ps.length < limit := by
        have harr : off + limit + k * limit = off + (k + 1) * limit := by
          simp [limit]
          omega
        rw [harr]
        exact hshort
      obtain ⟨s, hs⟩ := ih (off + limit) (processProducts acc ps0) hfull2 hshort2 f (by omega)
      refine ⟨s, ?_⟩
      simp only [buildLoop, hps0]
      rw [if_neg (by omega)]
      exact hs

/-- A successful paging loop run found a short page at one of the probed
offsets `off + j * limit`: success only ever comes from the short-page test,
never from a total count. -/
theorem buildLoop_short_of_ok {up : Nat → PageResp} :
    ∀ {fuel off : Nat} {acc s : Snapshot},
      buildLoop up fuel off acc = some (Except.ok s) →
      ∃ j ps, up (off + j * limit) = PageResp.ok ps ∧ ps.length < limit := by
  intro fuel
  induction fuel with
  | zero => intro off acc s h; exact Option.noConfusion h
  | succ f ih =>
    intro off acc s h
    simp only [buildLoop] at h
    cases hps : up off with
    | fail =>
      rw [hps] at h
      exact Except.noConfusion (Option.some.inj h)
    | ok products =>
      rw [hps] at h
      dsimp only at h
      by_cases hl : products.length < limit
      · refine ⟨0, products, ?_, hl⟩
        rw [Nat.zero_mul, Nat.add_zero]
        exact hps
      · rw [if_neg hl] at h
        obtain ⟨j, ps, hj, hjl⟩ := ih h
        refine ⟨j + 1, ps, ?_, hjl⟩
        have harr : off + (j + 1) * limit = off + limit + j * limit := by
          simp [limit]
          omega
        rw [harr]
        exact hj

/-- The paging loop fails only because a listing fetch at one of the probed
offsets failed. -/
theorem buildLoop_error_of_fail {up : Nat → PageResp} :
    ∀ {fuel off : Nat} {acc : Snapshot} {e : String},
      buildLoop up fuel off acc = some (Except.error e) →
      ∃ j, up (off + j * limit) = PageResp.fail := by
  intro fuel
  induction fuel with
  | zero => intro off acc e h; exact Option.noConfusion h
  | succ f ih =>
    intro off acc e h
    simp only [buildLoop] at h
    cases hps : up off with
    | fail =>
      refine ⟨0, ?_⟩
      rw [Nat.zero_mul, Nat.add_zero]
      exact hps
    | ok products =>
      rw [hps] at h
      dsimp only at h
      by_cases hl : products.length < limit
      · rw [if_pos hl] at h
        exact Except.noConfusion (Option.some.inj h)
      · rw [if_neg hl] at h
        obtain ⟨j, hj⟩ := ih h
        refine ⟨j + 1, ?_⟩
        have harr : off + (j + 1) * limit = off + limit + j * limit := by
          simp [limit]
          omega
        rw [harr]
        exact hj

/-- C8: the catalog build pages through the listing at offsets 0, limit,
2*limit, ... and under the hypothesis that pages before `k` are full (length at
least the requested page size) while page `k` is short, the loop terminates
with a built snapshot given at least `k + 1` iterations of fuel; conversely a
run can only terminate successfully because some probed page was shorter than
the requested page size — the model carries no total-count field because the
code reads none. -/
theorem c8_pagination_terminates (up : Nat → PageResp) (k fuel : Nat)
    (hfull : ∀ j, j < k → ∃ ps, up (j * limit) = PageResp.ok ps ∧ limit ≤ ps.length)
    (hshort : ∃ ps, up (k * limit) = PageResp.ok ps ∧ ps.length < limit)
    (hfuel : k < fuel) :
    (∃ s, buildLoop up fuel 0 (Snapshot.mk [] []) = some (Except.ok s))
    ∧ (∀ fuel2 off acc s, buildLoop up fuel2 off acc = some (Except.ok s) →
        ∃ j ps, up (off + j * limit) = PageResp.ok ps ∧ ps.length < limit) := by
  constructor
  · refine buildLoop_reaches_short k 0 (Snapshot.mk [] []) ?_ ?_ fuel hfuel
    · intro j hj
      rw [Nat.zero_add]
      exact hfull j hj
    · rw [Nat.zero_add]
      exact hshort
  · intro fuel2 off acc s h
    exact buildLoop_short_of_ok h

/-- C8 witness: an upstream answering an empty first page terminates at once. -/
theorem c8_witness :
    (∃ s, buildLoop upEmpty 1 0 (Snapshot.mk [] []) = some (Except.ok s))
    ∧ (∀ fuel2 off acc s, buildLoop upEmpty fuel2 off acc = some (Except.ok s) →
        ∃ j ps, upEmpty (off + j * limit) = PageResp.ok ps ∧ ps.length < limit) :=
  c8_pagination_terminates upEmpty 0 1
    (fun j hj => absurd hj (Nat.not_lt_zero j))
    ⟨[], rfl, by decide⟩
    (by decide)

/-- A product whose detail fetch failed contributes nothing: processing a list
with it equals processing the list without it. -/
theorem processProducts_skips_failed_detail (acc : Snapshot) (ps1 ps2 : List RawProduct) :
    processProducts acc (ps1 ++ RawProduct.mk none :: ps2) = processProducts acc (ps1 ++ ps2) := by
  induction ps1 generalizing acc with
  | nil => simp only [List.nil_append, processProducts]
  | cons p ps1 ih =>
    cases hd : p.detail with
    | none => simp only [List.cons_append, processProducts, hd]; exact ih acc
    | some vs => simp only [List.cons_append, processProducts, hd]; exact ih (vs.foldl addVariant acc)

/-- C9: a failing per-product detail fetch never fails the build — that product
is skipped and the remaining products still populate the snapshot — while a
rebuild can only end in an error because the credential is missing or a
paginated listing fetch failed. -/
theorem c9_detail_failure_only_skips_product (token : String) (up : Nat → PageResp)
    (writeOk : Bool) (fuel : Nat) (st st1 : BuildState) (msg : String)
    (acc : Snapshot) (ps1 ps2 : List RawProduct)
    (herr : buildSkuMaps token up writeOk fuel st = some (Except.error msg, st1)) :
    processProducts acc (ps1 ++ RawProduct.mk none :: ps2) = processProducts acc (ps1 ++ ps2)
    ∧ (token = "" ∨ ∃ j, up (j * limit) = PageResp.fail) := by
  refine ⟨processProducts_skips_failed_detail acc ps1 ps2, ?_⟩
  unfold buildSkuMaps at herr
  by_cases ht : token = ""
  · exact Or.inl ht
  · rw [if_neg ht] at herr
    right
    split at herr
    · exact Option.noConfusion herr
    · rename_i e2 heq
      obtain ⟨j, hj⟩ := buildLoop_error_of_fail heq
      refine ⟨j, ?_⟩
      rw [Nat.zero_add] at hj
      exact hj
    · split at herr
      · exact Except.noConfusion (congrArg Prod.fst (Option.some.inj herr))
      · exact Except.noConfusion (congrArg Prod.fst (Option.some.inj herr))

/-- C9 witness: a run over a failing listing gives the error, and a
failed-detail product in a concrete page contributes nothing. -/
theorem c9_witness :
    processProducts emptySnap ([] ++ RawProduct.mk none :: [prodGood])
        = processProducts emptySnap ([] ++ [prodGood])
    ∧ ("tok" = "" ∨ ∃ j, upFail (j * limit) = PageResp.fail) :=
  c9_detail_failure_only_skips_product "tok" upFail true 1 stEmpty stEmpty
    "Printful sync fetch failed" emptySnap [] [prodGood] rfl

/-- The id derivation only ever produces a nonzero number: `!syncId` rejects
`null` and `0`, `Number.isNaN` rejects `NaN`. -/
theorem deriveSyncId_some_ne_zero {v : RawVariant} {n : Int}
    (h : deriveSyncId v = some n) : n ≠ 0 := by
  unfold deriveSyncId at h
  cases h1 : jsNullish v.id v.sync_variant_id with
  | none => rw [h1] at h; exact Option.noConfusion h
  | some raw =>
    rw [h1] at h
    dsimp only at h
    cases h2 : jsToNumber raw with
    | none => rw [h2] at h; exact Option.noConfusion h
    | some m =>
      rw [h2] at h
      dsimp only at h
      by_cases hm : m = 0
      · rw [if_pos hm] at h
        exact Option.noConfusion h
      · rw [if_neg hm] at h
        rw [← Option.some.inj h]
        exact hm

/-- A property write preserves a predicate holding of every stored value. -/
theorem objSet_forall (P : Int → Prop) :
    ∀ (m : List (String × Int)) (k : String) (v : Int),
      (∀ kv ∈ m, P kv.2) → P v → ∀ kv ∈ objSet m k v, P kv.2 := by
  intro m k v
  induction m with
  | nil =>
    intro _ hv kv hkv
    simp only [objSet, List.mem_singleton] at hkv
    rw [hkv]
    exact hv
  | cons a m ih =>
    intro hm hv kv hkv
    simp only [objSet] at hkv
    by_cases ha : (a.1 == k) = true
    · rw [if_pos ha] at hkv
      rcases List.mem_cons.mp hkv with h | h
      · rw [h]; exact hv
      · exact hm kv (List.mem_cons_of_mem a h)
    · rw [if_neg ha] at hkv
      rcases List.mem_cons.mp hkv with h | h
      · rw [h]; exact hm a (List.mem_cons_self a m)
      · exact ih (fun x hx => hm x (List.mem_cons_of_mem a hx)) hv kv h

/-- One variant's contribution keeps every stored value nonzero. -/
theorem addVariant_nonzero {acc : Snapshot} (v : RawVariant)
    (h1 : ∀ kv ∈ acc.skuMap, kv.2 ≠ 0) (h2 : ∀ kv ∈ acc.externalMap, kv.2 ≠ 0) :
    (∀ kv ∈ (addVariant acc v).skuMap, kv.2 ≠ 0)
    ∧ (∀ kv ∈ (addVariant acc v).externalMap, kv.2 ≠ 0) := by
  cases hd : deriveSyncId v with
  | none =>
    unfold addVariant
    rw [hd]
    exact ⟨h1, h2⟩
  | some n =>
    have hn := deriveSyncId_some_ne_zero hd
    unfold addVariant
    rw [hd]
    dsimp only
    constructor
    · cases hs : v.sku with
      | none => exact h1
      | some s =>
        dsimp only
        by_cases he : s = ""
        · rw [if_pos he]; exact h1
        · rw [if_neg he]; exact objSet_forall (fun x => x ≠ 0) acc.skuMap s n h1 hn
    · cases he : v.external_id with
      | none => exact h2
      | some e =>
        dsimp only
        exact objSet_forall (fun x => x ≠ 0) acc.externalMap (jsPrimToString e) n h2 hn

/-- Folding a variant list keeps every stored value nonzero. -/
theorem foldl_addVariant_nonzero (vs : List RawVariant) :
    ∀ {acc : Snapshot}, (∀ kv ∈ acc.skuMap, kv.2 ≠ 0) → (∀ kv ∈ acc.externalMap, kv.2 ≠ 0) →
      (∀ kv ∈ (vs.foldl addVariant acc).skuMap, kv.2 ≠ 0)
      ∧ (∀ kv ∈ (vs.foldl addVariant acc).externalMap, kv.2 ≠ 0) := by
  induction vs with
  | nil => intro acc h1 h2; exact ⟨h1, h2⟩
  | cons v vs ih =>
    intro acc h1 h2
    rw [List.foldl_cons]
    have h3 := addVariant_nonzero v h1 h2
    exact ih h3.1 h3.2

/-- Processing a page of products keeps every stored value nonzero. -/
theorem processProducts_nonzero (ps : List RawProduct) :
    ∀ {acc : Snapshot}, (∀ kv ∈ acc.skuMap, kv.2 ≠ 0) → (∀ kv ∈ acc.externalMap, kv.2 ≠ 0) →
      (∀ kv ∈ (processProducts acc ps).skuMap, kv.2 ≠ 0)
      ∧ (∀ kv ∈ (processProducts acc ps).externalMap, kv.2 ≠ 0) := by
  induction ps with
  | nil => intro acc h1 h2; exact ⟨h1, h2⟩
  | cons p ps ih =>
    intro acc h1 h2
    cases hd : p.detail with
    | none =>
      simp only [processProducts, hd]
      exact ih h1 h2
    | some vs =>
      simp only [processProducts, hd]
      have h3 := foldl_addVariant_nonzero vs h1 h2
      exact ih h3.1 h3.2

/-- A built snapshot stores only nonzero values. -/
theorem buildLoop_nonzero {up : Nat → PageResp} :
    ∀ {fuel off : Nat} {acc s : Snapshot},
      (∀ kv ∈ acc.skuMap, kv.2 ≠ 0) → (∀ kv ∈ acc.externalMap, kv.2 ≠ 0) →
      buildLoop up fuel off acc = some (Except.ok s) →
      (∀ kv ∈ s.skuMap, kv.2 ≠ 0) ∧ (∀ kv ∈ s.externalMap, kv.2 ≠ 0) := by
  intro fuel
  induction fuel with
  | zero => intro off acc s _ _ h; exact Option.noConfusion h
  | succ f ih =>
    intro off acc s h1 h2 h
    simp only [buildLoop] at h
    cases hps : up off with
    | fail =>
      rw [hps] at h
      exact Except.noConfusion (Option.some.inj h)
    | ok products =>
      rw [hps] at h
      dsimp only at h
      have h3 := processProducts_nonzero products h1 h2
      by_cases hl : products.length < limit
      · rw [if_pos hl] at h
        have hs := Except.ok.inj (Option.some.inj h)
        rw [← hs]
        exact h3
      · rw [if_neg hl] at h
        exact ih h3.1 h3.2 h

/-- C4 (amended): a variant whose id derivation (primary field `v.id`, then
fallback `v.sync_variant_id`, then `Number`) yields nothing is discarded from
both maps, a derivation that succeeds yields a nonzero number, and consequently
every value stored in either map of a built snapshot is a nonzero integer.
(The guard `!syncId || Number.isNaN(syncId)` does not exclude negative
numbers, so "positive" cannot be guaranteed.) -/
theorem c4_discard_invalid_ids (up : Nat → PageResp) (fuel : Nat) (s m : Snapshot)
    (v w : RawVariant) (n : Int)
    (hbuild : buildLoop up fuel 0 (Snapshot.mk [] []) = some (Except.ok s))
    (hv : deriveSyncId v = none) (hw : deriveSyncId w = some n) :
    addVariant m v = m ∧ n ≠ 0
    ∧ (∀ kv ∈ s.skuMap, kv.2 ≠ 0) ∧ (∀ kv ∈ s.externalMap, kv.2 ≠ 0) := by
  have hnz := buildLoop_nonzero (fun kv hkv => absurd hkv (List.not_mem_nil kv))
    (fun kv hkv => absurd hkv (List.not_mem_nil kv)) hbuild
  refine ⟨?_, deriveSyncId_some_ne_zero hw, hnz.1, hnz.2⟩
  unfold addVariant
  rw [hv]

/-- C4 counterexample: the upstream variant `{id: -5, sku: "A"}` passes the
guard (`-5` is truthy and not `NaN`) and is stored, so the built `skuMap` holds
the value -5, which is not a positive integer — the claim that every stored
value is positive fails. -/
theorem c4_counterexample :
    buildLoop upOneNeg 1 0 (Snapshot.mk [] [])
        = some (Except.ok (Snapshot.mk [("A", -5)] []))
    ∧ ("A", (-5 : Int)) ∈ (Snapshot.mk [("A", -5)] []).skuMap
    ∧ ¬ (0 : Int) < -5 := by
  refine ⟨rfl, ?_, by decide⟩
  exact List.mem_singleton.mpr rfl

/-- C4 witness: the snapshot built from `upOneGood` stores only nonzero values,
`varNoId` is discarded, and `varGood` derives the nonzero id 7. -/
theorem c4_witness :
    addVariant snapBoth varNoId = snapBoth ∧ (7 : Int) ≠ 0
    ∧ (∀ kv ∈ snapGood.skuMap, kv.2 ≠ 0) ∧ (∀ kv ∈ snapGood.externalMap, kv.2 ≠ 0) :=
  c4_discard_invalid_ids upOneGood 1 snapGood snapBoth varNoId varGood 7
    rfl rfl rfl

/-- C6: `loadSkuMapFromFile` is a total function of the store's state — it
never raises. A missing file and an unreadable/corrupt one load as two empty
maps; a legacy-shaped document (an object with no `externalMap` field) loads
wholesale as `skuMap` with `externalMap` empty; a current-shape document (both
fields present and truthy — in particular both tables, as the program itself
writes them) loads the two stored maps. -/
theorem c6_load_tolerates_shapes (fields : List (String × JVal)) (parsed skuV extV : JVal)
    (hleg : jGet (JVal.obj fields) "externalMap" = none)
    (hsku : jGet parsed "skuMap" = some skuV)
    (hext2 : jGet parsed "externalMap" = some extV)
    (hts : jTruthy skuV = true) (hte : jTruthy extV = true) :
    loadSkuMapFromFile StoreState.missing = (JVal.obj [], JVal.obj [])
    ∧ loadSkuMapFromFile StoreState.unreadable = (JVal.obj [], JVal.obj [])
    ∧ loadSkuMapFromFile (StoreState.doc (JVal.obj fields)) = (JVal.obj fields, JVal.obj [])
    ∧ loadSkuMapFromFile (StoreState.doc parsed) = (skuV, extV) := by
  refine ⟨rfl, rfl, ?_, ?_⟩
  · unfold loadSkuMapFromFile
    dsimp only
    rw [hleg]
    rw [if_neg (by simp [jTruthyOpt])]
    rfl
  · cases parsed with
    | num n => exact Option.noConfusion hsku
    | str s2 => exact Option.noConfusion hsku
    | bool b => exact Option.noConfusion hsku
    | null => exact Option.noConfusion hsku
    | arr elems => exact Option.noConfusion hsku
    | obj fields2 =>
      unfold loadSkuMapFromFile
      dsimp only
      rw [hsku, hext2]
      rw [if_pos (by simp only [jTruthyOpt]; rw [hts, hte]; rfl)]
      unfold jsOrEmpty
      dsimp only
      rw [if_pos hts, if_pos hte]

/-- C6 witness: a legacy flat document loads wholesale into `skuMap`, and a
current-shape document loads its two tables. -/
theorem c6_witness :
    loadSkuMapFromFile StoreState.missing = (JVal.obj [], JVal.obj [])
    ∧ loadSkuMapFromFile StoreState.unreadable = (JVal.obj [], JVal.obj [])
    ∧ loadSkuMapFromFile (StoreState.doc (JVal.obj [("A", JVal.num 5)]))
        = (JVal.obj [("A", JVal.num 5)], JVal.obj [])
    ∧ loadSkuMapFromFile
        (StoreState.doc (JVal.obj
          [("skuMap", JVal.obj [("A", JVal.num 5)]), ("externalMap", JVal.obj [])]))
        = (JVal.obj [("A", JVal.num 5)], JVal.obj []) :=
  c6_load_tolerates_shapes [("A", JVal.num 5)]
    (JVal.obj [("skuMap", JVal.obj [("A", JVal.num 5)]), ("externalMap", JVal.obj [])])
    (JVal.obj [("A", JVal.num 5)]) (JVal.obj []) rfl rfl rfl rfl rfl

end PrintfulQr
